import Mathlib

/-!
# Verification of the Fruit Catcher game engine (`js/gameEngine.js`)

Shallow embedding of the lives-based `GameEngine` class.  JavaScript numbers
holding integer quantities (`score`, `level`, `lives`, `totalLanes`) become
`Nat`/`Int`; continuous quantities (positions, speeds, timers) become `Rat`.
The two observer callbacks (`onScoreChange`, `onGameEnd`) are modelled by a
flag recording whether a callback is installed together with a counter of how
many times it has been invoked; `lastTime` and the `requestAnimationFrame`
scheduling of `gameLoop` are wall-clock bookkeeping and are not part of the
state.  `Math.random` draws are passed in as explicit parameters (`lane` for
the lane draw, `rand` for the item-kind draw).

Source field `basketWidthRatio` is embedded as `basketWidth`, and the item
field `xRatio` as `xCenter` (same values, shorter names).
-/

namespace GameEngine

/-- The three item kinds of `spawnItem`: `"apple"`, `"grape"`, `"bomb"`. -/
inductive ItemType where
  | apple : ItemType
  | grape : ItemType
  | bomb : ItemType
deriving DecidableEq

/-- A falling item, as pushed by `spawnItem`:
`{ laneIndex, xRatio, y, type, speed }`. -/
structure Item where
  laneIndex : Nat
  xCenter : Rat
  y : Rat
  type : ItemType
  speed : Rat
deriving DecidableEq

/-- The mutable fields of the `GameEngine` class, plus the callback model
(`hasScore`/`hasEnd`: a callback is installed; `scoreFires`/`endFires`: number
of invocations so far). -/
structure GameState where
  score : Nat
  level : Nat
  lives : Int
  items : List Item
  isGameActive : Bool
  spawnTimer : Rat
  spawnInterval : Rat
  baseSpeed : Rat
  totalLanes : Nat
  basketWidth : Rat
  basketX : Rat
  hasScore : Bool
  hasEnd : Bool
  scoreFires : Nat
  endFires : Nat
deriving DecidableEq

/-- The `constructor`: score 0, level 1, lives 3, no items, inactive,
spawn timer 0, interval 1500 ms, base speed 150, 3 lanes, basket width
ratio 0.2, basket at 0.5, no callbacks installed yet. -/
def init : GameState where
  score := 0
  level := 1
  lives := 3
  items := []
  isGameActive := false
  spawnTimer := 0
  spawnInterval := 1500
  baseSpeed := 150
  totalLanes := 3
  basketWidth := 1/5
  basketX := 1/2
  hasScore := false
  hasEnd := false
  scoreFires := 0
  endFires := 0

/-- `setScoreChangeCallback(callback)`: installs the score-changed observer. -/
def setScoreChangeCallback (s : GameState) : GameState :=
  { s with hasScore := true }

/-- `setGameEndCallback(callback)`: installs the game-ended observer. -/
def setGameEndCallback (s : GameState) : GameState :=
  { s with hasEnd := true }

/-- `updateScoreUI()`: `if (this.onScoreChange) this.onScoreChange(score, level, lives)`. -/
def updateScoreUI (s : GameState) : GameState :=
  { s with scoreFires := if s.hasScore then s.scoreFires + 1 else s.scoreFires }

/-- `stop()`: `this.isGameActive = false; if (this.onGameEnd) this.onGameEnd(score, level)`.
Note there is no guard on the previous value of `isGameActive`. -/
def stop (s : GameState) : GameState :=
  { s with
    isGameActive := false
    endFires := if s.hasEnd then s.endFires + 1 else s.endFires }

/-- `start()`: resets the run state (but not `basketX` and not `spawnTimer`),
marks the engine active and fires the score callback once.  The `gameLoop()`
kick-off and the `lastTime` stamp are scheduling, not state. -/
def start (s : GameState) : GameState :=
  updateScoreUI
    { s with
      isGameActive := true
      score := 0
      level := 1
      lives := 3
      items := []
      spawnInterval := 1500
      baseSpeed := 150
      totalLanes := 3
      basketWidth := 1/5 }

/-- `addScore(points)`: add the points, recompute
`newLevel = Math.floor(score / 1000) + 1`, and if it exceeds the current
level apply the level-up block once: `baseSpeed *= 1.1`, `totalLanes++` when
the new level is odd, and basket width `max(0.1, 0.2 - (newLevel - 1) * 0.02)`;
finally fire the score callback. -/
def addScore (points : Nat) (s : GameState) : GameState :=
  let score' := s.score + points
  let newLevel := score' / 1000 + 1
  let s' :=
    if s.level < newLevel then
      { s with
        score := score'
        level := newLevel
        baseSpeed := s.baseSpeed * (11/10)
        totalLanes := if newLevel % 2 = 1 then s.totalLanes + 1 else s.totalLanes
        basketWidth := max (1/10) (1/5 - ((newLevel : Rat) - 1) * (1/50)) }
    else { s with score := score' }
  updateScoreUI s'

/-- `loseLife()`: `this.lives--; this.updateScoreUI(); if (this.lives <= 0) this.stop()`. -/
def loseLife (s : GameState) : GameState :=
  let s' := updateScoreUI { s with lives := s.lives - 1 }
  if s'.lives ≤ 0 then stop s' else s'

/-- `setBasketPosition(xRatio)`: no-op while inactive, otherwise clamp to
`[0, 1]` with `Math.max(0, Math.min(1, xRatio))`. -/
def setBasketPosition (x : Rat) (s : GameState) : GameState :=
  if s.isGameActive then { s with basketX := max 0 (min 1 x) } else s

/-- `checkCollision(item)`: `Math.abs(basketX - item.xRatio) <
basketWidthRatio / 2 + itemHalfWidth` with `itemHalfWidth = 0.04`. -/
def checkCollision (s : GameState) (x : Rat) : Bool :=
  decide (|s.basketX - x| < s.basketWidth / 2 + 1/25)

/-- `handleItemCollection(item)`: bomb sets lives to 0, fires the score
callback and calls `stop()`; apple adds 100 points, grape adds 300. -/
def handleItemCollection (it : Item) (s : GameState) : GameState :=
  match it.type with
  | .bomb => stop (updateScoreUI { s with lives := 0 })
  | .apple => addScore 100 s
  | .grape => addScore 300 s

/-- `spawnItem()`: pick a lane (`Math.floor(Math.random() * totalLanes)`,
passed in as `lane`), a kind from the second draw `rand`
(bomb if `rand > 0.9`, grape if `rand > 0.6`, else apple), and push
`{ laneIndex, xRatio = (2*lane+1)/(2*totalLanes), y = -50, type,
speed = baseSpeed * (1 + (level - 1) * 0.15) }`. -/
def spawnItem (lane : Nat) (rand : Rat) (s : GameState) : GameState :=
  let laneCenter : Rat := (2 * lane + 1) / (2 * s.totalLanes)
  let t : ItemType := if 9/10 < rand then .bomb else if 3/5 < rand then .grape else .apple
  { s with
    items := s.items ++
      [{ laneIndex := lane
         xCenter := laneCenter
         y := -50
         type := t
         speed := s.baseSpeed * (1 + ((s.level : Rat) - 1) * (3/20)) }] }

/-- One iteration of the item loop of `update`, for the item at the current
index: move it by `speed * deltaTime`; if it is in the collection band
`[550, 620)` and collides with the basket, collect and remove it; else if it
is past the bottom edge (`y > 600`), a non-bomb costs a life, and the item is
removed; otherwise it stays with its new position.  Returns the surviving
item (if any) and the updated engine state. -/
def updateItem (dt : Rat) (it : Item) (s : GameState) : Option Item × GameState :=
  let y' := it.y + it.speed * dt
  if 550 ≤ y' ∧ y' < 620 ∧ checkCollision s it.xCenter = true then
    (none, handleItemCollection it s)
  else if 600 < y' then
    (none, if it.type = .bomb then s else loseLife s)
  else
    (some { it with y := y' }, s)

/-- The `for (let i = items.length - 1; i >= 0; i--)` loop of `update`:
indices are visited from the last (newest) element down to the first, and
`splice(i, 1)` removal keeps the relative order of the survivors. -/
def processItems (dt : Rat) : List Item → GameState → List Item × GameState
  | [], s => ([], s)
  | it :: rest, s =>
    let p := processItems dt rest s
    match updateItem dt it p.2 with
    | (none, s') => (p.1, s')
    | (some it', s') => (it' :: p.1, s')

/-- `update(deltaTime)`: advance the spawn timer by `deltaTime * 1000`; when
it reaches the spawn interval, spawn one item and reset the timer to 0; then
run the item loop.  Note the method itself has no `isGameActive` guard. -/
def update (dt : Rat) (lane : Nat) (rand : Rat) (s : GameState) : GameState :=
  let timer' := s.spawnTimer + dt * 1000
  let s1 :=
    if s.spawnInterval ≤ timer' then { spawnItem lane rand s with spawnTimer := 0 }
    else { s with spawnTimer := timer' }
  let p := processItems dt s1.items s1
  { p.2 with items := p.1 }

/-- One tick of `gameLoop(currentTime)`: `if (!this.isGameActive) return;`
then compute `deltaTime` from the clock (passed in as `dt`) and call
`update`; the self-rescheduling via `requestAnimationFrame` is external. -/
def gameLoopStep (dt : Rat) (lane : Nat) (rand : Rat) (s : GameState) : GameState :=
  if s.isGameActive then update dt lane rand s else s

/-- States reachable through the public interface, starting from a freshly
constructed engine.  `update` draws satisfy what `Math.random` guarantees:
the lane index is below `totalLanes` and the kind draw lies in `[0, 1)`;
elapsed time is non-negative. -/
inductive Reachable : GameState → Prop where
  | init : Reachable init
  | start {s : GameState} : Reachable s → Reachable (start s)
  | stop {s : GameState} : Reachable s → Reachable (stop s)
  | setBasketPosition {s : GameState} (x : Rat) :
      Reachable s → Reachable (setBasketPosition x s)
  | update {s : GameState} (dt : Rat) (lane : Nat) (rand : Rat) :
      Reachable s → 0 ≤ dt → lane < s.totalLanes → 0 ≤ rand → rand < 1 →
      Reachable (update dt lane rand s)
  | setScoreChangeCallback {s : GameState} :
      Reachable s → Reachable (setScoreChangeCallback s)
  | setGameEndCallback {s : GameState} :
      Reachable s → Reachable (setGameEndCallback s)

end GameEngine

namespace GameEngine

/-! ## Run-state invariants -/

/-- The level/score coupling maintained by `addScore`. -/
def levelInv (s : GameState) : Prop := s.level = s.score / 1000 + 1

/-- While the engine is active, at least one life remains. -/
def livesInv (s : GameState) : Prop := s.isGameActive = true → 1 ≤ s.lives

/-! ## Helper lemmas about the individual operations -/

@[simp] theorem updateScoreUI_score (s : GameState) : (updateScoreUI s).score = s.score := rfl

@[simp] theorem updateScoreUI_level (s : GameState) : (updateScoreUI s).level = s.level := rfl

@[simp] theorem updateScoreUI_lives (s : GameState) : (updateScoreUI s).lives = s.lives := rfl

@[simp] theorem updateScoreUI_isGameActive (s : GameState) :
    (updateScoreUI s).isGameActive = s.isGameActive := rfl

theorem addScore_score (p : Nat) (s : GameState) : (addScore p s).score = s.score + p := by
  simp only [addScore, updateScoreUI]
  split <;> rfl

theorem addScore_lives (p : Nat) (s : GameState) : (addScore p s).lives = s.lives := by
  simp only [addScore, updateScoreUI]
  split <;> rfl

theorem addScore_isGameActive (p : Nat) (s : GameState) :
    (addScore p s).isGameActive = s.isGameActive := by
  simp only [addScore, updateScoreUI]
  split <;> rfl

theorem addScore_level_ge (p : Nat) (s : GameState) : s.level ≤ (addScore p s).level := by
  simp only [addScore, updateScoreUI]
  split
  · exact Nat.le_of_lt ‹_›
  · exact Nat.le_refl _

theorem addScore_levelInv (p : Nat) (s : GameState) (h : levelInv s) :
    levelInv (addScore p s) := by
  have hmono : s.level ≤ (s.score + p) / 1000 + 1 := by
    rw [h]
    exact Nat.succ_le_succ (Nat.div_le_div_right (Nat.le_add_right _ _))
  simp only [levelInv, addScore, updateScoreUI]
  split
  · rfl
  · have hle : (s.score + p) / 1000 + 1 ≤ s.level := Nat.le_of_not_lt ‹_›
    show s.level = (s.score + p) / 1000 + 1
    exact Nat.le_antisymm hmono hle

theorem apple_ne_bomb : ItemType.apple ≠ ItemType.bomb := by decide

theorem loseLife_lives (s : GameState) : (loseLife s).lives = s.lives - 1 := by
  unfold loseLife updateScoreUI stop
  dsimp only
  split <;> rfl

theorem loseLife_score (s : GameState) : (loseLife s).score = s.score := by
  unfold loseLife updateScoreUI stop
  dsimp only
  split <;> rfl

theorem loseLife_level (s : GameState) : (loseLife s).level = s.level := by
  unfold loseLife updateScoreUI stop
  dsimp only
  split <;> rfl

theorem loseLife_levelInv (s : GameState) (h : levelInv s) : levelInv (loseLife s) := by
  unfold levelInv loseLife updateScoreUI stop
  dsimp only
  split <;> exact h

/-- `loseLife` re-establishes the lives invariant unconditionally: either the
decremented value is still ≥ 1, or `stop` has made the engine inactive. -/
theorem loseLife_livesInv (s : GameState) : livesInv (loseLife s) := by
  unfold livesInv loseLife updateScoreUI stop
  dsimp only
  split
  next hc => intro h; exact Bool.noConfusion h
  next hc =>
    intro _
    have hc' : ¬ s.lives - 1 ≤ 0 := hc
    show 1 ≤ s.lives - 1
    omega

theorem handleItemCollection_levelInv (it : Item) (s : GameState) (h : levelInv s) :
    levelInv (handleItemCollection it s) := by
  unfold handleItemCollection
  cases it.type
  · exact addScore_levelInv 100 s h
  · exact addScore_levelInv 300 s h
  · exact h

theorem handleItemCollection_livesInv (it : Item) (s : GameState) (h : livesInv s) :
    livesInv (handleItemCollection it s) := by
  unfold handleItemCollection
  cases it.type
  · intro ha
    rw [addScore_isGameActive] at ha
    rw [addScore_lives]
    exact h ha
  · intro ha
    rw [addScore_isGameActive] at ha
    rw [addScore_lives]
    exact h ha
  · intro ha
    exact Bool.noConfusion ha

theorem handleItemCollection_score_le (it : Item) (s : GameState) :
    s.score ≤ (handleItemCollection it s).score := by
  unfold handleItemCollection
  cases it.type
  · rw [addScore_score]; exact Nat.le_add_right _ _
  · rw [addScore_score]; exact Nat.le_add_right _ _
  · exact Nat.le_refl _

theorem handleItemCollection_level_le (it : Item) (s : GameState) :
    s.level ≤ (handleItemCollection it s).level := by
  unfold handleItemCollection
  cases it.type
  · exact addScore_level_ge 100 s
  · exact addScore_level_ge 300 s
  · exact Nat.le_refl _

theorem updateItem_levelInv (dt : Rat) (it : Item) (s : GameState) (h : levelInv s) :
    levelInv (updateItem dt it s).2 := by
  unfold updateItem
  dsimp only
  split
  · exact handleItemCollection_levelInv it s h
  · split
    · split
      · exact h
      · exact loseLife_levelInv s h
    · exact h

theorem updateItem_livesInv (dt : Rat) (it : Item) (s : GameState) (h : livesInv s) :
    livesInv (updateItem dt it s).2 := by
  unfold updateItem
  dsimp only
  split
  · exact handleItemCollection_livesInv it s h
  · split
    · split
      · exact h
      · exact loseLife_livesInv s
    · exact h

theorem updateItem_score_le (dt : Rat) (it : Item) (s : GameState) :
    s.score ≤ (updateItem dt it s).2.score := by
  unfold updateItem
  dsimp only
  split
  · exact handleItemCollection_score_le it s
  · split
    · split
      · exact Nat.le_refl _
      · rw [loseLife_score]
    · exact Nat.le_refl _

theorem updateItem_level_le (dt : Rat) (it : Item) (s : GameState) :
    s.level ≤ (updateItem dt it s).2.level := by
  unfold updateItem
  dsimp only
  split
  · exact handleItemCollection_level_le it s
  · split
    · split
      · exact Nat.le_refl _
      · rw [loseLife_level]
    · exact Nat.le_refl _

theorem processItems_cons_snd (dt : Rat) (it : Item) (rest : List Item) (s : GameState) :
    (processItems dt (it :: rest) s).2 = (updateItem dt it (processItems dt rest s).2).2 := by
  show (match updateItem dt it (processItems dt rest s).2 with
        | (none, s') => ((processItems dt rest s).1, s')
        | (some it', s') => (it' :: (processItems dt rest s).1, s')).2 =
      (updateItem dt it (processItems dt rest s).2).2
  cases updateItem dt it (processItems dt rest s).2 with
  | mk o s' => cases o <;> rfl

theorem processItems_levelInv (dt : Rat) (l : List Item) (s : GameState) (h : levelInv s) :
    levelInv (processItems dt l s).2 := by
  induction l generalizing s with
  | nil => exact h
  | cons it rest ih =>
    rw [processItems_cons_snd]
    exact updateItem_levelInv dt it _ (ih s h)

theorem processItems_livesInv (dt : Rat) (l : List Item) (s : GameState) (h : livesInv s) :
    livesInv (processItems dt l s).2 := by
  induction l generalizing s with
  | nil => exact h
  | cons it rest ih =>
    rw [processItems_cons_snd]
    exact updateItem_livesInv dt it _ (ih s h)

theorem processItems_score_le (dt : Rat) (l : List Item) (s : GameState) :
    s.score ≤ (processItems dt l s).2.score := by
  induction l generalizing s with
  | nil => exact Nat.le_refl _
  | cons it rest ih =>
    rw [processItems_cons_snd]
    exact Nat.le_trans (ih s) (updateItem_score_le dt it _)

theorem processItems_level_le (dt : Rat) (l : List Item) (s : GameState) :
    s.level ≤ (processItems dt l s).2.level := by
  induction l generalizing s with
  | nil => exact Nat.le_refl _
  | cons it rest ih =>
    rw [processItems_cons_snd]
    exact Nat.le_trans (ih s) (updateItem_level_le dt it _)

theorem update_levelInv (dt : Rat) (lane : Nat) (rand : Rat) (s : GameState)
    (h : levelInv s) : levelInv (update dt lane rand s) := by
  unfold update
  dsimp only
  split
  · exact processItems_levelInv dt _ _ h
  · exact processItems_levelInv dt _ _ h

theorem update_livesInv (dt : Rat) (lane : Nat) (rand : Rat) (s : GameState)
    (h : livesInv s) : livesInv (update dt lane rand s) := by
  unfold update
  dsimp only
  split
  · exact processItems_livesInv dt _ _ h
  · exact processItems_livesInv dt _ _ h

theorem update_score_le (dt : Rat) (lane : Nat) (rand : Rat) (s : GameState) :
    s.score ≤ (update dt lane rand s).score := by
  unfold update
  dsimp only
  split
  · exact processItems_score_le dt _ { spawnItem lane rand s with spawnTimer := 0 }
  · exact processItems_score_le dt _ { s with spawnTimer := s.spawnTimer + dt * 1000 }

theorem update_level_le (dt : Rat) (lane : Nat) (rand : Rat) (s : GameState) :
    s.level ≤ (update dt lane rand s).level := by
  unfold update
  dsimp only
  split
  · exact processItems_level_le dt _ { spawnItem lane rand s with spawnTimer := 0 }
  · exact processItems_level_le dt _ { s with spawnTimer := s.spawnTimer + dt * 1000 }

theorem setBasketPosition_levelInv (x : Rat) (s : GameState) (h : levelInv s) :
    levelInv (setBasketPosition x s) := by
  unfold setBasketPosition
  split <;> exact h

theorem setBasketPosition_livesInv (x : Rat) (s : GameState) (h : livesInv s) :
    livesInv (setBasketPosition x s) := by
  unfold setBasketPosition
  split
  · intro ha; exact h ha
  · exact h

theorem setBasketPosition_level (x : Rat) (s : GameState) :
    (setBasketPosition x s).level = s.level := by
  unfold setBasketPosition
  split <;> rfl

theorem init_levelInv : levelInv init := rfl

theorem start_levelInv (s : GameState) : levelInv (start s) :=
  show (1 : Nat) = 0 / 1000 + 1 from rfl

theorem init_livesInv : livesInv init := fun ha => Bool.noConfusion ha

theorem start_livesInv (s : GameState) : livesInv (start s) :=
  fun _ => show (1 : Int) ≤ 3 by decide

theorem stop_livesInv (s : GameState) : livesInv (stop s) :=
  fun ha => Bool.noConfusion ha

/-- The level/score coupling holds in every reachable state. -/
theorem reachable_levelInv {s : GameState} (h : Reachable s) : levelInv s := by
  induction h with
  | init => exact init_levelInv
  | start _ _ => exact start_levelInv _
  | stop _ ih => exact ih
  | setBasketPosition x _ ih => exact setBasketPosition_levelInv x _ ih
  | update dt lane rand _ _ _ _ _ ih => exact update_levelInv dt lane rand _ ih
  | setScoreChangeCallback _ ih => exact ih
  | setGameEndCallback _ ih => exact ih

/-- In every reachable state, an active engine still has at least one life. -/
theorem reachable_livesInv {s : GameState} (h : Reachable s) : livesInv s := by
  induction h with
  | init => exact init_livesInv
  | start _ _ => exact start_livesInv _
  | stop _ _ => exact stop_livesInv _
  | setBasketPosition x _ ih => exact setBasketPosition_livesInv x _ ih
  | update dt lane rand _ _ _ _ _ ih => exact update_livesInv dt lane rand _ ih
  | setScoreChangeCallback _ ih => exact ih
  | setGameEndCallback _ ih => exact ih

/-! ## Claim theorems -/

/-- C10: `start()` leaves `basketX` untouched (it is 0.5 only because the
constructor set it), while score, level, lives, the item list, base speed,
spawn interval, lane count and basket width ratio are all reset to their
constructor values. -/
theorem c10_start_effects (s : GameState) :
    (start s).basketX = s.basketX ∧
    (start s).score = 0 ∧ (start s).level = 1 ∧ (start s).lives = 3 ∧
    (start s).items = [] ∧ (start s).baseSpeed = 150 ∧
    (start s).spawnInterval = 1500 ∧ (start s).totalLanes = 3 ∧
    (start s).basketWidth = 1/5 ∧ init.basketX = 1/2 :=
  ⟨rfl, rfl, rfl, rfl, rfl, rfl, rfl, rfl, rfl, rfl⟩

/-- C7: `checkCollision` returns true exactly when
`|basketX - horizontalCenter| < basketWidthRatio/2 + 0.04`; in particular a
basket at 0.5 of width 0.2 and an item centred at 0.55 collide, the distance
being 1/20 = 0.05 < 0.14 = 0.2/2 + 0.04. -/
theorem c7_collision_test (s : GameState) (x : Rat) :
    (checkCollision s x = true ↔ |s.basketX - x| < s.basketWidth / 2 + 1/25) ∧
    checkCollision { init with basketX := 1/2, basketWidth := 1/5 } (11/20) = true ∧
    |(1/2 : Rat) - 11/20| = 1/20 ∧ (1/20 : Rat) < (1/5) / 2 + 1/25 := by
  have habs : |(1/2 : Rat) - 11/20| = 1/20 := by
    rw [show (1/2 : Rat) - 11/20 = -(1/20) by norm_num, abs_neg,
      abs_of_nonneg (by norm_num : (0 : Rat) ≤ 1/20)]
  have hlt : |(1/2 : Rat) - 11/20| < (1/5) / 2 + 1/25 := by
    rw [habs]; norm_num
  refine ⟨?_, decide_eq_true hlt, habs, by norm_num⟩
  unfold checkCollision
  exact ⟨of_decide_eq_true, fun h => decide_eq_true h⟩

/-- C1 counterexample: `stop()` has no guard on `isGameActive`, so calling it
while the engine is already inactive fires `onGameEnd` again: after
`start` and one `stop` the engine is inactive with one callback invocation,
and a second `stop` raises the count to 2. -/
theorem c1_counterexample :
    (stop (start (setGameEndCallback init))).isGameActive = false ∧
    (stop (start (setGameEndCallback init))).endFires = 1 ∧
    (stop (stop (start (setGameEndCallback init)))).endFires = 2 :=
  ⟨rfl, by decide, by decide⟩

/-- C1 amended: every call to `stop()` — including a call made while the
engine is already inactive — sets `isGameActive` to false and fires the
installed `onGameEnd` callback exactly once per call, so the callback is not
fired exactly once per run and `stop` is not idempotent with respect to it. -/
theorem c1_stop_fires_every_call (s : GameState) (h : s.hasEnd = true) :
    (stop s).isGameActive = false ∧
    (stop s).endFires = s.endFires + 1 ∧
    (stop (stop s)).endFires = s.endFires + 2 := by
  refine ⟨rfl, ?_, ?_⟩ <;> simp [stop, h]

/-- Witness for C1 at a concrete state with the callback installed. -/
theorem c1_stop_fires_every_call_witness :
    (stop (setGameEndCallback init)).isGameActive = false ∧
    (stop (setGameEndCallback init)).endFires = (setGameEndCallback init).endFires + 1 ∧
    (stop (stop (setGameEndCallback init))).endFires = (setGameEndCallback init).endFires + 2 :=
  c1_stop_fires_every_call (setGameEndCallback init) rfl

/-- C2 counterexample: `update` itself performs its mutations regardless of
the active flag: on the freshly constructed (inactive) engine one second of
`update` moves the spawn accumulator from 0 to 1000. -/
theorem c2_counterexample :
    init.isGameActive = false ∧ init.spawnTimer = 0 ∧
    (update 1 0 0 init).spawnTimer = 1000 :=
  ⟨rfl, rfl, by norm_num [update, processItems, init]⟩

/-- C2 amended: `setBasketPosition` while inactive leaves the state
unchanged, and the frame driver `gameLoop` returns before calling `update`
while inactive, so a frame step on an inactive engine leaves the state
unchanged; the `update` method itself, however, has no guard. -/
theorem c2_inactive_frame_noop (s : GameState) (h : s.isGameActive = false) :
    (∀ x, setBasketPosition x s = s) ∧
    (∀ dt lane rand, gameLoopStep dt lane rand s = s) := by
  constructor
  · intro x
    simp [setBasketPosition, h]
  · intro dt lane rand
    simp [gameLoopStep, h]

/-- Witness for C2 on the freshly constructed engine. -/
theorem c2_inactive_frame_noop_witness :
    setBasketPosition 2 init = init ∧ gameLoopStep 1 0 0 init = init :=
  ⟨(c2_inactive_frame_noop init rfl).1 2, (c2_inactive_frame_noop init rfl).2 1 0 0⟩

/-- C3 counterexample: a single `addScore` crossing four level thresholds
(4000 points at score 0, level 1) applies the level-up block only once:
`baseSpeed` becomes 150·1.1 = 165 rather than 150·1.1⁴, and `totalLanes`
becomes 4 (one increment, because the final level 5 is odd) rather than
3 + 2 (one increment for each odd level passed through, 3 and 5). -/
theorem c3_counterexample :
    (addScore 4000 (start init)).level = 5 ∧
    (addScore 4000 (start init)).baseSpeed = 165 ∧
    (addScore 4000 (start init)).baseSpeed ≠ 150 * (11/10) * (11/10) * (11/10) * (11/10) ∧
    (addScore 4000 (start init)).totalLanes = 4 ∧
    (addScore 4000 (start init)).totalLanes ≠ 3 + 2 := by
  norm_num [addScore, updateScoreUI, start, init]

/-- C3 amended: a score addition that raises the level applies the level-up
block exactly once for the whole addition, regardless of how many thresholds
were crossed: `baseSpeed` is multiplied by 1.1 exactly once, `totalLanes` is
incremented exactly once iff the final new level is odd, and the basket
width is set from the final new level; when exactly one threshold is crossed
this coincides with applying each effect once per integer level gained. -/
theorem c3_levelup_once (p : Nat) (s : GameState)
    (hup : s.level < (s.score + p) / 1000 + 1) :
    (addScore p s).score = s.score + p ∧
    (addScore p s).level = (s.score + p) / 1000 + 1 ∧
    (addScore p s).baseSpeed = s.baseSpeed * (11/10) ∧
    (addScore p s).totalLanes =
      (if ((s.score + p) / 1000 + 1) % 2 = 1 then s.totalLanes + 1 else s.totalLanes) ∧
    (addScore p s).basketWidth =
      max (1/10) (1/5 - ((((s.score + p) / 1000 + 1 : Nat) : Rat) - 1) * (1/50)) := by
  unfold addScore updateScoreUI
  dsimp only
  rw [if_pos hup]
  exact ⟨rfl, rfl, rfl, rfl, rfl⟩

/-- Witness for C3 at a single-threshold addition (1000 points at level 1). -/
theorem c3_levelup_once_witness :
    (addScore 1000 (start init)).score = (start init).score + 1000 ∧
    (addScore 1000 (start init)).level = ((start init).score + 1000) / 1000 + 1 ∧
    (addScore 1000 (start init)).baseSpeed = (start init).baseSpeed * (11/10) ∧
    (addScore 1000 (start init)).totalLanes =
      (if (((start init).score + 1000) / 1000 + 1) % 2 = 1 then (start init).totalLanes + 1
        else (start init).totalLanes) ∧
    (addScore 1000 (start init)).basketWidth =
      max (1/10) (1/5 - (((((start init).score + 1000) / 1000 + 1 : Nat) : Rat) - 1) * (1/50)) :=
  c3_levelup_once 1000 (start init) (by decide)

/-- C4 amended: in every reachable state the invariant holds in the weaker
form "while the engine is active, `lives ≥ 1` (in particular `lives ≥ 0`)";
after termination, further beneficial misses processed later in the same
`update` frame can push `lives` below zero. -/
theorem c4_active_lives_pos (s : GameState) (hr : Reachable s)
    (ha : s.isGameActive = true) : 1 ≤ s.lives :=
  reachable_livesInv hr ha

/-- Witness for C4 right after `start`. -/
theorem c4_active_lives_pos_witness : 1 ≤ (start init).lives :=
  c4_active_lives_pos (start init) (Reachable.start Reachable.init) rfl

/-- C5: in every reachable state `level = floor(score/1000) + 1`; within a
run, `update` never decreases the score, and the level is non-decreasing
under `update` and unchanged by `setBasketPosition` and `stop` (only a new
`start` resets it). -/
theorem c5_level_score_coupling (s : GameState) (hr : Reachable s) :
    s.level = s.score / 1000 + 1 ∧
    (∀ dt lane rand, s.score ≤ (update dt lane rand s).score ∧
      s.level ≤ (update dt lane rand s).level) ∧
    (∀ x, (setBasketPosition x s).level = s.level) ∧
    (stop s).level = s.level :=
  ⟨reachable_levelInv hr,
   fun dt lane rand => ⟨update_score_le dt lane rand s, update_level_le dt lane rand s⟩,
   fun x => setBasketPosition_level x s,
   rfl⟩

/-- Witness for C5 on the constructor state. -/
theorem c5_level_score_coupling_witness :
    init.level = init.score / 1000 + 1 ∧
    (init.score ≤ (update 1 0 0 init).score ∧ init.level ≤ (update 1 0 0 init).level) ∧
    (setBasketPosition 0 init).level = init.level ∧
    (stop init).level = init.level :=
  ⟨(c5_level_score_coupling init Reachable.init).1,
   (c5_level_score_coupling init Reachable.init).2.1 1 0 0,
   (c5_level_score_coupling init Reachable.init).2.2.1 0,
   (c5_level_score_coupling init Reachable.init).2.2.2⟩

/-- C6: an item that passes the bottom edge (`y > 600`) without having been
collected is removed, and it decrements `lives` by exactly 1 when it is
beneficial (apple or grape) and leaves `lives` unchanged when it is a bomb. -/
theorem c6_missed_item (dt : Rat) (it : Item) (s : GameState)
    (h1 : 600 < it.y + it.speed * dt)
    (h2 : ¬(550 ≤ it.y + it.speed * dt ∧ it.y + it.speed * dt < 620 ∧
        checkCollision s it.xCenter = true)) :
    ((it.type = .apple ∨ it.type = .grape) →
      (updateItem dt it s).1 = none ∧ (updateItem dt it s).2.lives = s.lives - 1) ∧
    (it.type = .bomb →
      (updateItem dt it s).1 = none ∧ (updateItem dt it s).2.lives = s.lives) := by
  unfold updateItem
  dsimp only
  rw [if_neg h2, if_pos h1]
  constructor
  · intro hb
    have hnb : ¬ it.type = .bomb := by rcases hb with h | h <;> simp [h]
    rw [if_neg hnb]
    exact ⟨rfl, loseLife_lives s⟩
  · intro hb
    rw [if_pos hb]
    exact ⟨rfl, rfl⟩

/-- Witness for C6: an apple at `y = 625` with zero speed, already past the
bottom edge and outside the collection band, against the constructor state. -/
theorem c6_missed_item_witness :
    (updateItem 0 { laneIndex := 0, xCenter := 1/6, y := 625, type := .apple, speed := 0 }
        init).1 = none ∧
    (updateItem 0 { laneIndex := 0, xCenter := 1/6, y := 625, type := .apple, speed := 0 }
        init).2.lives = init.lives - 1 :=
  (c6_missed_item 0 { laneIndex := 0, xCenter := 1/6, y := 625, type := .apple, speed := 0 }
      init (by norm_num) (by norm_num)).1 (Or.inl rfl)

/-- C8: collecting a bomb while the engine is active sets `lives` to 0,
terminates the run and fires the installed `onGameEnd` callback exactly once
for that collection. -/
theorem c8_bomb_instant_kill (it : Item) (s : GameState)
    (ha : s.isGameActive = true) (he : s.hasEnd = true) (hb : it.type = .bomb) :
    (handleItemCollection it s).lives = 0 ∧
    (handleItemCollection it s).isGameActive = false ∧
    (handleItemCollection it s).endFires = s.endFires + 1 := by
  unfold handleItemCollection
  rw [hb]
  refine ⟨rfl, rfl, ?_⟩
  simp [stop, updateScoreUI, he]

/-- Witness for C8: a bomb collected right after `start` with the end
callback installed. -/
theorem c8_bomb_instant_kill_witness :
    (handleItemCollection { laneIndex := 0, xCenter := 1/6, y := 560, type := .bomb, speed := 150 }
        (start (setGameEndCallback init))).lives = 0 ∧
    (handleItemCollection { laneIndex := 0, xCenter := 1/6, y := 560, type := .bomb, speed := 150 }
        (start (setGameEndCallback init))).isGameActive = false ∧
    (handleItemCollection { laneIndex := 0, xCenter := 1/6, y := 560, type := .bomb, speed := 150 }
        (start (setGameEndCallback init))).endFires = (start (setGameEndCallback init)).endFires + 1 :=
  c8_bomb_instant_kill _ (start (setGameEndCallback init)) rfl rfl rfl

/-- C9: the spawned item's horizontal centre is computed once at spawn as
`(2·lane+1)/(2·laneCount)` and lies in `[0, 1]`; the per-frame item step
never changes a surviving item's centre; and concretely, spawning in lane 0
with 3 lanes yields centre 1/6. -/
theorem c9_spawn_center (lane : Nat) (rand : Rat) (s : GameState) (h : lane < s.totalLanes) :
    (∃ it : Item,
      (spawnItem lane rand s).items = s.items ++ [it] ∧
      it.xCenter = (2 * lane + 1) / (2 * s.totalLanes) ∧
      0 ≤ it.xCenter ∧ it.xCenter ≤ 1) ∧
    (∀ dt it₀ s₀ it₁, (updateItem dt it₀ s₀).1 = some it₁ → it₁.xCenter = it₀.xCenter) ∧
    (spawnItem 0 0 init).items =
      [{ laneIndex := 0, xCenter := 1/6, y := -50, type := .apple, speed := 150 }] := by
  have hn : 0 < s.totalLanes := Nat.lt_of_le_of_lt (Nat.zero_le lane) h
  have hd : (0 : Rat) < 2 * (s.totalLanes : Rat) := by
    have : (0 : Rat) < (s.totalLanes : Rat) := by exact_mod_cast hn
    linarith
  refine ⟨⟨_, rfl, rfl, ?_, ?_⟩, ?_, ?_⟩
  · show (0 : Rat) ≤ (2 * (lane : Rat) + 1) / (2 * (s.totalLanes : Rat))
    have hnum : (0 : Rat) ≤ 2 * (lane : Rat) + 1 := by positivity
    exact div_nonneg hnum (le_of_lt hd)
  · show (2 * (lane : Rat) + 1) / (2 * (s.totalLanes : Rat)) ≤ 1
    rw [div_le_one hd]
    have hle : ((lane + 1 : Nat) : Rat) ≤ ((s.totalLanes : Nat) : Rat) := by
      exact_mod_cast Nat.succ_le_of_lt h
    push_cast at hle
    linarith
  · intro dt it₀ s₀ it₁ hsome
    unfold updateItem at hsome
    dsimp only at hsome
    split at hsome
    · exact Option.noConfusion hsome
    · split at hsome
      · exact Option.noConfusion hsome
      · have := Option.some.inj hsome
        rw [← this]
  · norm_num [spawnItem, init]

/-- Witness for C9: spawning in lane 0 of the 3-lane constructor state. -/
theorem c9_spawn_center_witness :
    (spawnItem 0 0 init).items =
      [{ laneIndex := 0, xCenter := 1/6, y := -50, type := .apple, speed := 150 }] :=
  (c9_spawn_center 0 0 init (by decide)).2.2

/-- C4 counterexample: a reachable run drives `lives` to −1.  After `start`,
three updates of 1.5 s each spawn an apple per frame (lane 0, kind draw 0)
and lose one life when the first apple passes the bottom edge; a final
10-second update spawns a fourth apple and misses the three apples in flight
in a single frame, so `loseLife` runs three times in that frame: lives go
2 → 1 → 0 (which calls `stop`) → −1. -/
theorem c4_counterexample :
    Reachable (update 10 0 0 (update (3/2) 0 0 (update (3/2) 0 0
      (update (3/2) 0 0 (start init))))) ∧
    (update 10 0 0 (update (3/2) 0 0 (update (3/2) 0 0
      (update (3/2) 0 0 (start init))))).lives = -1 := by
  have e1 : update (3/2) 0 0 (start init) =
      { start init with
        spawnTimer := 0
        items := [{ laneIndex := 0, xCenter := 1/6, y := 175, type := .apple, speed := 150 }] } := by
    norm_num [update, processItems, updateItem, checkCollision, spawnItem, loseLife, stop,
      updateScoreUI, start, init]
  have e2 : update (3/2) 0 0
      ({ start init with
        spawnTimer := 0
        items := [{ laneIndex := 0, xCenter := 1/6, y := 175, type := .apple, speed := 150 }] }) =
      { start init with
        spawnTimer := 0
        items := [{ laneIndex := 0, xCenter := 1/6, y := 400, type := .apple, speed := 150 },
          { laneIndex := 0, xCenter := 1/6, y := 175, type := .apple, speed := 150 }] } := by
    norm_num [update, processItems, updateItem, checkCollision, spawnItem, loseLife, stop,
      updateScoreUI, start, init]
  have e3 : update (3/2) 0 0
      ({ start init with
        spawnTimer := 0
        items := [{ laneIndex := 0, xCenter := 1/6, y := 400, type := .apple, speed := 150 },
          { laneIndex := 0, xCenter := 1/6, y := 175, type := .apple, speed := 150 }] }) =
      { start init with
        spawnTimer := 0
        lives := 2
        items := [{ laneIndex := 0, xCenter := 1/6, y := 400, type := .apple, speed := 150 },
          { laneIndex := 0, xCenter := 1/6, y := 175, type := .apple, speed := 150 }] } := by
    norm_num [update, processItems, updateItem, checkCollision, spawnItem, loseLife, stop,
      updateScoreUI, start, init, if_neg apple_ne_bomb]
  have e4 : update 10 0 0
      ({ start init with
        spawnTimer := 0
        lives := 2
        items := [{ laneIndex := 0, xCenter := 1/6, y := 400, type := .apple, speed := 150 },
          { laneIndex := 0, xCenter := 1/6, y := 175, type := .apple, speed := 150 }] }) =
      { start init with
        spawnTimer := 0
        lives := -1
        items := []
        isGameActive := false } := by
    norm_num [update, processItems, updateItem, checkCollision, spawnItem, loseLife, stop,
      updateScoreUI, start, init, if_neg apple_ne_bomb]
  rw [e1, e2, e3, e4]
  have h0 : Reachable (start init) := Reachable.start Reachable.init
  have h1 : Reachable
      ({ start init with
        spawnTimer := 0
        items := [{ laneIndex := 0, xCenter := 1/6, y := 175, type := .apple, speed := 150 }] }) := by
    rw [← e1]
    exact Reachable.update (3/2) 0 0 h0 (by norm_num) (by decide) le_rfl (by norm_num)
  have h2 : Reachable
      ({ start init with
        spawnTimer := 0
        items := [{ laneIndex := 0, xCenter := 1/6, y := 400, type := .apple, speed := 150 },
          { laneIndex := 0, xCenter := 1/6, y := 175, type := .apple, speed := 150 }] }) := by
    rw [← e2]
    exact Reachable.update (3/2) 0 0 h1 (by norm_num) (by decide) le_rfl (by norm_num)
  have h3 : Reachable
      ({ start init with
        spawnTimer := 0
        lives := 2
        items := [{ laneIndex := 0, xCenter := 1/6, y := 400, type := .apple, speed := 150 },
          { laneIndex := 0, xCenter := 1/6, y := 175, type := .apple, speed := 150 }] }) := by
    rw [← e3]
    exact Reachable.update (3/2) 0 0 h2 (by norm_num) (by decide) le_rfl (by norm_num)
  have h4 : Reachable
      ({ start init with
        spawnTimer := 0
        lives := -1
        items := []
        isGameActive := false }) := by
    rw [← e4]
    exact Reachable.update 10 0 0 h3 (by norm_num) (by decide) le_rfl (by norm_num)
  exact ⟨h4, rfl⟩
